import Mathlib

/-!
Verification of the discord-announcement-bot core: the weekday+time
recurrence computation of `JobScheduler._run_jobs_on_schedule`
(src/bot/scheduler/scheduler.py), the announcement state machine and
sender (src/bot/announcement/sender.py, src/bot/config/settings.py),
the lightning-talk data models (src/bot/announcement/models.py), and
the template renderer (src/bot/announcement/service.py,
src/bot/announcement/templates.py).

Dates and times are embedded as in Python's `datetime`: a date is its
proleptic-Gregorian ordinal (`date.toordinal()`, day 1 = 0001-01-01,
a Monday), a time of day is its minute count since midnight, and
`date.weekday()` is Monday = 0 .. Sunday = 6.  Python's `%` on
integers is Euclidean remainder for a positive modulus, which matches
`Int.emod`.
-/

/-- Models a Python `datetime.datetime`: `day` is `date.toordinal()` of its
date part and `minute` is the minute-of-day of its time part
(`hour * 60 + minute`); a valid value has `minute < 1440`. -/
structure PyDateTime where
  day : Nat
  minute : Nat
deriving DecidableEq, Repr

/-- Python `date.weekday()` for an ordinal: ordinal 1 (0001-01-01) is a
Monday (`0`), so the weekday is `(ordinal + 6) % 7`. -/
def pyWeekday (ordinal : Nat) : Nat := (ordinal + 6) % 7

/-- The next-fire computation of `JobScheduler._run_jobs_on_schedule`
(scheduler.py lines 108-118):
`days_ahead = (target_weekday - now.weekday()) % 7`, bumped to `7` when
`days_ahead == 0 and now.time() >= target_time`, and
`next_run = datetime.combine(now.date() + timedelta(days=days_ahead),
target_time)`.  Python's `%` on a positive modulus is `Int.emod`. -/
def next_run (now : PyDateTime) (target_weekday target_time : Nat) : PyDateTime :=
  let days_ahead : Int := ((target_weekday : Int) - (pyWeekday now.day : Int)) % 7
  let days_ahead : Int :=
    if days_ahead = 0 ∧ target_time ≤ now.minute then 7 else days_ahead
  { day := now.day + days_ahead.toNat, minute := target_time }

/-- Linearises an instant for comparison, as
`(next_run - now).total_seconds()` does in the source (up to the constant
factor 60 and the common offset). -/
def toMinutes (dt : PyDateTime) : Nat := 1440 * dt.day + dt.minute

/-- Models `EventType` of src/bot/config/settings.py (and the matching
`AnnouncementType` of src/bot/constants.py). -/
inductive EventType where
  | REGULAR
  | LIGHTNING_TALK
  | REST
deriving DecidableEq, Repr

/-- Models `LightningTalkInfo` of src/bot/config/settings.py: three plain
string fields, defaulting to the empty string. -/
structure LightningTalkInfo where
  speaker : String := ""
  title : String := ""
  url : String := ""
deriving DecidableEq, Repr

/-- Models `LightningTalkInfo.clear` (settings.py): resets all three fields
to the empty string. -/
def LightningTalkInfo.clear (_lt : LightningTalkInfo) : LightningTalkInfo :=
  { speaker := "", title := "", url := "" }

/-- Models `LightningTalkInfo.is_complete` (settings.py):
`bool(self.speaker and self.title and self.url)`, i.e. all three strings
are non-empty (Python truthiness of strings). -/
def LightningTalkInfo.is_complete (lt : LightningTalkInfo) : Bool :=
  !(lt.speaker == "") && !(lt.title == "") && !(lt.url == "")

/-- Models `LTInfo` of src/bot/announcement/models.py: three optional
string fields, defaulting to `None`. -/
structure LTInfo where
  speaker_name : Option String := none
  title : Option String := none
  url : Option String := none
deriving DecidableEq, Repr

/-- Models `LTInfo.is_complete` (models.py): true exactly when all three
fields are not `None` (an empty string still counts). -/
def LTInfo.is_complete (lt : LTInfo) : Bool :=
  lt.speaker_name.isSome && lt.title.isSome && lt.url.isSome

/-- Models `LTInfo.clear` (models.py): resets all three fields to `None`. -/
def LTInfo.clear (_lt : LTInfo) : LTInfo :=
  { speaker_name := none, title := none, url := none }

/-- The specification's completeness notion for `LTInfo`: all three fields
present and non-empty ("`isComplete` ⟺ all three present and non-empty"). -/
def ltinfoPresentNonEmpty (lt : LTInfo) : Bool :=
  (match lt.speaker_name with | some s => !(s == "") | none => false) &&
    (match lt.title with | some s => !(s == "") | none => false) &&
    (match lt.url with | some s => !(s == "") | none => false)

/-- Models `BotSettings` of src/bot/config/settings.py; times are
minute-of-day counts and the channel ids are the raw integers (0 = unset,
the default). -/
structure BotSettings where
  announce_time : Nat := 1290
  confirm_time : Nat := 1290
  action_role : String := "@GesonAnko"
  confirm_weekday : String := "Thu"
  announce_weekday : String := "Sun"
  default_url : String := "https://x.com/VRC_ML_hangout/status/1779863235988242925"
  action_channel_id : Nat := 0
  announce_channel_id : Nat := 0
  command_channel_id : Nat := 0
  lt_info : LightningTalkInfo := {}
  next_event_type : EventType := EventType.REGULAR
deriving DecidableEq, Repr

/-- The default `BotSettings()` value of settings.py. -/
def default_settings : BotSettings := {}

/-- Models `AnnouncementSender.process_confirmation_reaction`
(src/bot/announcement/sender.py lines 141-163): a chain of string
comparisons on the reaction emoji updating `settings.next_event_type`,
with any unrecognized emoji leaving the settings untouched. -/
def process_confirmation_reaction (emoji : String) (settings : BotSettings) :
    BotSettings :=
  if emoji == "👍" then { settings with next_event_type := EventType.REGULAR }
  else if emoji == "⚡" then
    { settings with next_event_type := EventType.LIGHTNING_TALK }
  else if emoji == "💤" then { settings with next_event_type := EventType.REST }
  else settings

/-- The emoji-to-event mapping of the specification ("a small tagged-variant
mapping emoji -> EventType"), used to phrase last-write-wins. -/
def emoji_event (emoji : String) : Option EventType :=
  if emoji == "👍" then some EventType.REGULAR
  else if emoji == "⚡" then some EventType.LIGHTNING_TALK
  else if emoji == "💤" then some EventType.REST
  else none

/-- Models `AnnouncementTemplates.format_regular`
(src/bot/announcement/templates.py): substitutes month, day and url into
the fixed regular-meeting template. -/
def format_regular (month day : Nat) (url : String) : String :=
  "今週の" ++ toString month ++ "/" ++ toString day ++
    "のML集会も21時半より開催致します。今週はまったり雑談会です\n" ++ url

/-- Models `AnnouncementTemplates.format_lightning_talk` (templates.py). -/
def format_lightning_talk (month day : Nat) (speaker_name title url : String) :
    String :=
  "今週のML集会はLT会! " ++ toString month ++ "/" ++ toString day ++
    "の21時半より開催致します。\n" ++ speaker_name ++ "さんより「" ++ title ++
    "」を行いますので、ぜひみなさんお越しください！\n" ++ url

/-- Models `AnnouncementTemplates.format_rest` (templates.py): a fixed
literal. -/
def format_rest : String := "今週のML集会はおやすみです。"

/-- Models `AnnouncementSender.send_announcement`
(src/bot/announcement/sender.py lines 82-139).  `month`/`day` stand for
`datetime.date.today()`, `channel_found` for `client.get_channel`
returning a channel, and `send_ok` for whether `channel.send(message)`
succeeds or raises `discord.DiscordException`.  Returns the boolean
result together with the settings as left after the call: the
lightning-talk info is cleared and the event type reset to `REGULAR`
only after a successful send. -/
def send_announcement (month day : Nat) (settings : BotSettings)
    (channel_found : Bool) (send_ok : String → Bool) : Bool × BotSettings :=
  if settings.announce_channel_id = 0 then (false, settings)
  else if !channel_found then (false, settings)
  else if settings.next_event_type = EventType.LIGHTNING_TALK
      && !settings.lt_info.is_complete then (false, settings)
  else
    let message :=
      if settings.next_event_type = EventType.REGULAR then
        format_regular month day settings.default_url
      else if settings.next_event_type = EventType.LIGHTNING_TALK then
        format_lightning_talk month day settings.lt_info.speaker
          settings.lt_info.title
          (if settings.lt_info.url == "" then settings.default_url
           else settings.lt_info.url)
      else format_rest
    if send_ok message then
      let settings :=
        if settings.next_event_type = EventType.LIGHTNING_TALK then
          { settings with lt_info := settings.lt_info.clear }
        else settings
      (true, { settings with next_event_type := EventType.REGULAR })
    else (false, settings)

/-- Boolean test that `sub` is a leading run of `l` (character lists). -/
def charsPre : List Char → List Char → Bool
  | [], _ => true
  | _ :: _, [] => false
  | c :: cs, d :: ds => c == d && charsPre cs ds

/-- Boolean test that `sub` occurs contiguously inside `l`. -/
def charsSub : List Char → List Char → Bool
  | sub, [] => sub.isEmpty
  | sub, c :: ds => charsPre sub (c :: ds) || charsSub sub ds

/-- Substring test on strings, used to state what a rendered message
contains. -/
def strContainsB (s sub : String) : Bool := charsSub sub.data s.data

/-- Models the conversion a Python `datetime.date` performs from its
ordinal to calendar year, month and day (proleptic Gregorian; ordinal 1
is 0001-01-01), via the standard civil-from-days computation. -/
def civilFromOrdinal (o : Nat) : Int × Int × Int :=
  let z : Int := (o : Int) + 305
  let era : Int := (if 0 ≤ z then z else z - 146096) / 146097
  let doe : Int := z - era * 146097
  let yoe : Int := (doe - doe / 1460 + doe / 36524 - doe / 146096) / 365
  let y : Int := yoe + era * 400
  let doy : Int := doe - (365 * yoe + yoe / 4 - yoe / 100)
  let mp : Int := (5 * doy + 2) / 153
  let d : Int := doy - (153 * mp + 2) / 5 + 1
  let m : Int := if mp < 10 then mp + 3 else mp - 9
  ((if m ≤ 2 then y + 1 else y), m, d)

/-- Models `Weekday.to_int` of src/bot/constants.py: the 3-letter code to
number map, defaulting to Sunday (6) for unknown codes. -/
def weekday_to_int (weekday_str : String) : Nat :=
  if weekday_str == "Mon" then 0
  else if weekday_str == "Tue" then 1
  else if weekday_str == "Wed" then 2
  else if weekday_str == "Thu" then 3
  else if weekday_str == "Fri" then 4
  else if weekday_str == "Sat" then 5
  else 6

/-- Models `AnnouncementService.get_next_weekday`
(src/bot/announcement/service.py lines 187-204): `days_ahead =
target_weekday - today.weekday()`, bumped by 7 when `days_ahead <= 0`,
added to today — the repository's own notion of "the next occurrence of
a weekday". -/
def get_next_weekday (todayOrdinal : Nat) (target_weekday : Nat) : Nat :=
  let days_ahead : Int := (target_weekday : Int) - (pyWeekday todayOrdinal : Int)
  let days_ahead : Int := if days_ahead ≤ 0 then days_ahead + 7 else days_ahead
  todayOrdinal + days_ahead.toNat

/-- Models the message construction of
`AnnouncementSender.send_confirmation_message`
(src/bot/announcement/sender.py lines 56-67): `days_until_sunday =
(6 - today.weekday()) % 7`, `next_sunday = today + days_until_sunday`,
then the f-string interpolating the action role and the month/day of
`next_sunday`, followed by the fixed reaction legend. -/
def send_confirmation_message (action_role : String) (todayOrdinal : Nat) :
    String :=
  let days_until_sunday := (6 - pyWeekday todayOrdinal) % 7
  let next_sunday := todayOrdinal + days_until_sunday
  let c := civilFromOrdinal next_sunday
  action_role ++ (" 今度の日曜 (" ++ (toString c.2.1 ++ ("/" ++ (toString c.2.2 ++
    ") の予定を確認します。\n👍: 通常開催\n⚡: LT開催\n💤: おやすみ\nリアクションがない場合は通常開催として扱います。"))))

/-- One parsed element of a Python `string.Template`: literal text or a
`$name` placeholder. -/
inductive TItem where
  | lit (s : String)
  | var (name : String)
deriving DecidableEq, Repr

/-- Python `x or y` for `x : Optional[str]`: falls back when `x` is `None`
or the empty string (falsy). -/
def pyOrStr (o : Option String) (d : String) : String :=
  match o with
  | none => d
  | some s => if s == "" then d else s

/-- Models `string.Template.substitute`: replaces each placeholder from
the mapping and raises `KeyError` (modelled as `Except.error`) on a
placeholder missing from it. -/
def substitute : List TItem → List (String × String) → Except String String
  | [], _ => Except.ok ""
  | TItem.lit s :: rest, vars =>
      (substitute rest vars).map fun r => s ++ r
  | TItem.var v :: rest, vars =>
      match List.lookup v vars with
      | some value => (substitute rest vars).map fun r => value ++ r
      | none => Except.error v

/-- Models the `template_vars` built for a lightning-talk announcement by
`AnnouncementService.generate_announcement_content`
(src/bot/announcement/service.py lines 163-174): month, day, and the
three lightning-talk fields with their Python `or` fallbacks. -/
def lt_template_vars (month day : Nat) (default_url : String) (lt : LTInfo) :
    List (String × String) :=
  [("mm", toString month), ("dd", toString day),
    ("speaker_name", pyOrStr lt.speaker_name "発表者未定"),
    ("title", pyOrStr lt.title "タイトル未定"),
    ("url", pyOrStr lt.url default_url)]

/-- The fixed lightning-talk template of the repository
(`AnnouncementTemplates.LT_TEMPLATE`, src/bot/announcement/templates.py),
parsed into literal and placeholder pieces exactly as Python's
`string.Template` tokenizes it. -/
def LT_TEMPLATE_ITEMS : List TItem :=
  [TItem.lit "今週のML集会はLT会! ", TItem.var "mm", TItem.lit "/",
    TItem.var "dd", TItem.lit "の21時半より開催致します。\n",
    TItem.var "speaker_name", TItem.lit "さんより「", TItem.var "title",
    TItem.lit "」を行いますので、ぜひみなさんお越しください！\n",
    TItem.var "url"]

/-- Models the lightning-talk branch of
`AnnouncementService.generate_announcement_content` (service.py lines
163-185): substitute the lightning-talk template variables into the
template. -/
def generate_announcement_content_lt (tmpl : List TItem) (month day : Nat)
    (default_url : String) (lt : LTInfo) : Except String String :=
  substitute tmpl (lt_template_vars month day default_url lt)

/-- The text produced for a lightning-talk announcement with the
repository's fixed template (empty on the error case, which the claims
rule out). -/
def rendered_lt (month day : Nat) (default_url : String) (lt : LTInfo) :
    String :=
  match generate_announcement_content_lt LT_TEMPLATE_ITEMS month day
      default_url lt with
  | Except.ok s => s
  | Except.error _ => ""

/-- Models one pass of the job loop body of
`JobScheduler._run_jobs_on_schedule` (scheduler.py lines 132-137): each
job either succeeds or raises, and a raising job is caught by the
per-job `try`/`except` and turned into an error log entry. -/
inductive JobResult where
  | success
  | failure (msg : String)
deriving DecidableEq, Repr

/-- One observable event of the scheduler loop: either the sleep elapses
and the occurrence's jobs run (each with its own outcome), or the task
receives `asyncio.CancelledError` while suspended. -/
inductive LoopEvent where
  | occurrence (results : List JobResult)
  | cancelled
deriving DecidableEq, Repr

/-- Models the control flow of `JobScheduler._run_jobs_on_schedule`
(scheduler.py lines 94-148) over a finite trace of loop events: on an
occurrence every job runs, a failing job only contributes an error log
(inner `except Exception`), and the loop recurses; on cancellation the
loop breaks.  Returns how many occurrences were processed and the
error log. -/
def run_jobs_on_schedule : List LoopEvent → Nat × List String
  | [] => (0, [])
  | LoopEvent.cancelled :: _ => (0, [])
  | LoopEvent.occurrence results :: rest =>
      let logs := results.filterMap fun r =>
        match r with
        | JobResult.success => none
        | JobResult.failure e => some ("Error running job: " ++ e)
      let p := run_jobs_on_schedule rest
      (p.1 + 1, logs ++ p.2)

/-- C1: for every `now` and every valid target weekday and target time, the
next fire instant computed by the scheduler loop is strictly greater
than `now`. -/
theorem C1_next_run_strictly_future (now : PyDateTime) (tw tt : Nat)
    (_htw : tw < 7) (htt : tt < 1440) (hnow : now.minute < 1440) :
    toMinutes now < toMinutes (next_run now tw tt) := by
  simp only [next_run, toMinutes, pyWeekday]
  split
  · omega
  · omega

/-- Witness for C1 at a concrete instant. -/
theorem C1_witness :
    toMinutes ⟨738655, 1290⟩ < toMinutes (next_run ⟨738655, 1290⟩ 6 1290) :=
  C1_next_run_strictly_future ⟨738655, 1290⟩ 6 1290 (by decide) (by decide)
    (by decide)

/-- C2: when the target weekday is today's weekday and the target time has
already passed (including exact equality at the target minute), the
computed next fire instant is exactly 7 days ahead, at the target
time. -/
theorem C2_same_day_passed_rolls_a_week (now : PyDateTime) (tw tt : Nat)
    (hw : tw = pyWeekday now.day) (ht : tt ≤ now.minute) :
    next_run now tw tt = ⟨now.day + 7, tt⟩ := by
  simp only [next_run, pyWeekday] at *
  split
  · rfl
  · omega

/-- Witness for C2: a Sunday 21:30 target hit exactly at 21:30. -/
theorem C2_witness : next_run ⟨738661, 1290⟩ 6 1290 = ⟨738661 + 7, 1290⟩ :=
  C2_same_day_passed_rolls_a_week ⟨738661, 1290⟩ 6 1290 (by decide) (by decide)

/-- C3: when the target weekday differs from today's weekday, the next fire
instant falls on the target weekday, between 1 and 6 days ahead of
now's date. -/
theorem C3_other_day_within_week (now : PyDateTime) (tw tt : Nat)
    (htw : tw < 7) (hne : tw ≠ pyWeekday now.day) :
    pyWeekday (next_run now tw tt).day = tw ∧
      1 ≤ (next_run now tw tt).day - now.day ∧
      (next_run now tw tt).day - now.day ≤ 6 := by
  simp only [next_run, pyWeekday] at *
  split
  · omega
  · refine ⟨?_, ?_, ?_⟩ <;> omega

/-- Witness for C3: a Thursday target seen on a Monday is 3 days ahead. -/
theorem C3_witness :
    pyWeekday (next_run ⟨738655, 1290⟩ 3 1290).day = 3 ∧
      1 ≤ (next_run ⟨738655, 1290⟩ 3 1290).day - 738655 ∧
      (next_run ⟨738655, 1290⟩ 3 1290).day - 738655 ≤ 6 :=
  C3_other_day_within_week ⟨738655, 1290⟩ 3 1290 (by decide) (by decide)

/-- Helper: an unrecognized emoji leaves the settings untouched. -/
theorem process_reaction_of_none (e : String) (s : BotSettings)
    (h : emoji_event e = none) : process_confirmation_reaction e s = s := by
  unfold emoji_event at h
  unfold process_confirmation_reaction
  by_cases h1 : e == "👍" <;> by_cases h2 : e == "⚡" <;>
    by_cases h3 : e == "💤" <;> simp [h1, h2, h3] at h ⊢

/-- Helper: a recognized emoji sets the mapped event type. -/
theorem process_reaction_of_some (e : String) (s : BotSettings) (v : EventType)
    (h : emoji_event e = some v) :
    (process_confirmation_reaction e s).next_event_type = v := by
  unfold emoji_event at h
  unfold process_confirmation_reaction
  by_cases h1 : e == "👍" <;> by_cases h2 : e == "⚡" <;>
    by_cases h3 : e == "💤" <;> simp [h1, h2, h3] at h ⊢ <;> exact h

/-- Helper: `getD` of `getLast?` peels a cons. -/
theorem lastD_cons {α : Type} (a : α) (l : List α) (d : α) :
    ((a :: l).getLast?).getD d = (l.getLast?).getD a := by
  induction l generalizing a d with
  | nil => rfl
  | cons b l ih => rw [List.getLast?_cons_cons, ih, ih]

/-- Helper: folding a reaction sequence leaves the event type mapped from
the last recognized emoji, or the starting one when none is recognized. -/
theorem fold_reactions (es : List String) :
    ∀ s : BotSettings,
      ((es.foldl (fun st e => process_confirmation_reaction e st) s)).next_event_type
        = ((es.filterMap emoji_event).getLast?).getD s.next_event_type := by
  induction es with
  | nil => intro s; rfl
  | cons e es ih =>
    intro s
    rw [List.foldl_cons, List.filterMap_cons]
    cases he : emoji_event e with
    | none => rw [process_reaction_of_none e s he, ih s]
    | some v =>
      rw [ih (process_confirmation_reaction e s),
        process_reaction_of_some e s v he, lastD_cons]

/-- C4: processing a confirmation reaction sets the pending event type to
`REGULAR` for 👍, `LIGHTNING_TALK` for ⚡ and `REST` for 💤, leaves it
unchanged for any other emoji, and over any sequence of reactions the
final pending type is the one mapped from the last recognized emoji
(last-write-wins), defaulting to the starting type. -/
theorem C4_reaction_state_machine :
    (∀ s : BotSettings,
        (process_confirmation_reaction "👍" s).next_event_type
          = EventType.REGULAR) ∧
    (∀ s : BotSettings,
        (process_confirmation_reaction "⚡" s).next_event_type
          = EventType.LIGHTNING_TALK) ∧
    (∀ s : BotSettings,
        (process_confirmation_reaction "💤" s).next_event_type
          = EventType.REST) ∧
    (∀ (e : String) (s : BotSettings), emoji_event e = none →
        process_confirmation_reaction e s = s) ∧
    (∀ (es : List String) (s : BotSettings),
        ((es.foldl (fun st e => process_confirmation_reaction e st) s)).next_event_type
          = ((es.filterMap emoji_event).getLast?).getD s.next_event_type) :=
  ⟨fun _ => rfl, fun _ => rfl, fun _ => rfl,
    fun e s h => process_reaction_of_none e s h, fun es s => fold_reactions es s⟩

/-- Witness for C4: an unrecognized emoji is a no-op, and the sequence
💤 then 👍 ends in `REGULAR`. -/
theorem C4_witness :
    process_confirmation_reaction "🎉" default_settings = default_settings ∧
      ((["💤", "👍"].foldl (fun st e => process_confirmation_reaction e st)
            default_settings)).next_event_type = EventType.REGULAR := by
  refine ⟨C4_reaction_state_machine.2.2.2.1 "🎉" default_settings (by decide), ?_⟩
  rw [C4_reaction_state_machine.2.2.2.2 ["💤", "👍"] default_settings]
  decide

/-- C5: after an announcement is sent (the send succeeded), the pending
event type is reset to `REGULAR`, and when the just-sent type was
`LIGHTNING_TALK` the lightning-talk info is additionally cleared. -/
theorem C5_reset_after_successful_send (month day : Nat) (s : BotSettings)
    (cf : Bool) (so : String → Bool)
    (h : (send_announcement month day s cf so).1 = true) :
    (send_announcement month day s cf so).2.next_event_type
        = EventType.REGULAR ∧
      (s.next_event_type = EventType.LIGHTNING_TALK →
        (send_announcement month day s cf so).2.lt_info
          = { speaker := "", title := "", url := "" }) := by
  unfold send_announcement at h ⊢
  split_ifs at h ⊢ with h1 h2 h3 h4 h5 <;>
    (try simp only [LightningTalkInfo.clear] at h ⊢) <;> (try split at h) <;>
    simp_all [LightningTalkInfo.clear]

/-- Witness for C5: a successful lightning-talk send resets the state. -/
theorem C5_witness :
    (send_announcement 5 18
          { announce_channel_id := 42,
            lt_info := { speaker := "A", title := "B", url := "https://x" },
            next_event_type := EventType.LIGHTNING_TALK }
          true (fun _ => true)).2.next_event_type = EventType.REGULAR ∧
      (({ announce_channel_id := 42,
            lt_info := { speaker := "A", title := "B", url := "https://x" },
            next_event_type := EventType.LIGHTNING_TALK } :
          BotSettings).next_event_type = EventType.LIGHTNING_TALK →
        (send_announcement 5 18
            { announce_channel_id := 42,
              lt_info := { speaker := "A", title := "B", url := "https://x" },
              next_event_type := EventType.LIGHTNING_TALK }
            true (fun _ => true)).2.lt_info
          = { speaker := "", title := "", url := "" }) :=
  C5_reset_after_successful_send 5 18
    { announce_channel_id := 42,
      lt_info := { speaker := "A", title := "B", url := "https://x" },
      next_event_type := EventType.LIGHTNING_TALK }
    true (fun _ => true) (by decide)

/-- C10: when the send raises (so `send_announcement` returns false), the
settings — in particular the pending event type and the lightning-talk
info — are left exactly as they were. -/
theorem C10_failed_send_preserves_state (month day : Nat) (s : BotSettings)
    (cf : Bool) :
    send_announcement month day s cf (fun _ => false) = (false, s) := by
  unfold send_announcement
  split_ifs <;> simp_all

/-- Counterexample for C7: in `LTInfo` (models.py) a field holding the
empty string is "present" for `is_complete`, so `is_complete` is true
even though the speaker field is not a non-empty string — the claimed
equivalence with "all three present and non-empty" fails. -/
theorem C7_counterexample :
    LTInfo.is_complete
        { speaker_name := some "", title := some "T", url := some "https://u" }
        = true ∧
      ltinfoPresentNonEmpty
        { speaker_name := some "", title := some "T", url := some "https://u" }
        = false := by decide

/-- C7 (amended): `LightningTalkInfo.is_complete` (settings.py) is true iff
all three fields are non-empty strings; `LTInfo.is_complete` (models.py)
is true iff all three fields are present (not `None`), where a present
but empty string still counts as set. -/
theorem C7_amended_completeness_characterisation :
    (∀ lt : LightningTalkInfo,
        lt.is_complete = true ↔
          lt.speaker ≠ "" ∧ lt.title ≠ "" ∧ lt.url ≠ "") ∧
    (∀ lt : LTInfo,
        lt.is_complete = true ↔
          lt.speaker_name ≠ none ∧ lt.title ≠ none ∧ lt.url ≠ none) := by
  constructor
  · intro lt
    simp [LightningTalkInfo.is_complete, and_assoc]
  · intro lt
    simp [LTInfo.is_complete, Option.isSome_iff_ne_none, and_assoc]

/-- C9: a raising job callback never terminates the recurring loop: over
any trace without a cancellation, every occurrence is processed,
whatever the per-job outcomes are. -/
theorem C9_callback_failure_never_kills_loop (trace : List LoopEvent)
    (h : LoopEvent.cancelled ∉ trace) :
    (run_jobs_on_schedule trace).1 = trace.length := by
  induction trace with
  | nil => rfl
  | cons ev rest ih =>
    cases ev with
    | occurrence results =>
      simp only [run_jobs_on_schedule, List.length_cons]
      rw [ih (fun hm => h (List.mem_cons_of_mem _ hm))]
    | cancelled => exact absurd (List.mem_cons_self _ _) h

/-- Witness for C9: a trace whose first occurrence has a failing job is
still processed to the end. -/
theorem C9_witness :
    (run_jobs_on_schedule
          [LoopEvent.occurrence [JobResult.failure "send failed"],
            LoopEvent.occurrence [JobResult.success]]).1 =
      List.length
        [LoopEvent.occurrence [JobResult.failure "send failed"],
          LoopEvent.occurrence [JobResult.success]] :=
  C9_callback_failure_never_kills_loop
    [LoopEvent.occurrence [JobResult.failure "send failed"],
      LoopEvent.occurrence [JobResult.success]] (by decide)

/-- Helper: a list is a leading run of itself followed by anything. -/
theorem charsPre_self_append (s t : List Char) : charsPre s (s ++ t) = true := by
  induction s with
  | nil => rfl
  | cons c cs ih => simp [charsPre, ih]

/-- Helper: a list occurs inside itself followed by anything. -/
theorem charsSub_self_append (s t : List Char) : charsSub s (s ++ t) = true := by
  cases s with
  | nil => cases t <;> simp [charsSub, charsPre, List.isEmpty]
  | cons c cs =>
    have h := charsPre_self_append (c :: cs) t
    simp only [List.cons_append] at h
    simp [charsSub, h]

/-- Helper: occurrence is preserved by prepending. -/
theorem charsSub_append_of (pre l sub : List Char)
    (h : charsSub sub l = true) : charsSub sub (pre ++ l) = true := by
  induction pre with
  | nil => simpa using h
  | cons c cs ih => simp [charsSub, ih]

/-- Helper: appending concatenates the character data. -/
theorem data_append (a b : String) : (a ++ b).data = a.data ++ b.data := rfl

/-- Helper: a string contains its own leading part. -/
theorem contains_append_left (a b : String) : strContainsB (a ++ b) a = true := by
  unfold strContainsB
  rw [data_append]
  exact charsSub_self_append a.data b.data

/-- Helper: containment is preserved by prepending. -/
theorem strContains_append_of (p rest sub : String)
    (h : strContainsB rest sub = true) : strContainsB (p ++ rest) sub = true := by
  unfold strContainsB at h ⊢
  rw [data_append]
  exact charsSub_append_of p.data rest.data sub.data h

/-- Helper: a string contains the three-chunk run it starts with. -/
theorem contains_append3 (a b c d : String) :
    strContainsB (a ++ (b ++ (c ++ d))) (a ++ (b ++ c)) = true := by
  have h : a ++ (b ++ (c ++ d)) = (a ++ (b ++ c)) ++ d := by
    simp [String.append_assoc]
  rw [h]
  exact contains_append_left _ _

/-- C6: rendering a lightning-talk announcement with the repository's
template always succeeds (no raise), a missing speaker is rendered as
the placeholder 発表者未定, a missing title as タイトル未定, and a
missing lightning-talk URL falls back to the settings' default URL. -/
theorem C6_lt_render_total_and_fallbacks (month day : Nat)
    (default_url : String) (lt : LTInfo) :
    (generate_announcement_content_lt LT_TEMPLATE_ITEMS month day default_url
          lt).isOk = true ∧
      (lt.speaker_name = none →
        strContainsB (rendered_lt month day default_url lt) "発表者未定"
          = true) ∧
      (lt.title = none →
        strContainsB (rendered_lt month day default_url lt) "タイトル未定"
          = true) ∧
      (lt.url = none →
        strContainsB (rendered_lt month day default_url lt) default_url
          = true) := by
  have hgen : generate_announcement_content_lt LT_TEMPLATE_ITEMS month day
      default_url lt =
      Except.ok ("今週のML集会はLT会! " ++ (toString month ++ ("/" ++
        (toString day ++ ("の21時半より開催致します。\n" ++
        (pyOrStr lt.speaker_name "発表者未定" ++ ("さんより「" ++
        (pyOrStr lt.title "タイトル未定" ++
        ("」を行いますので、ぜひみなさんお越しください！\n" ++
        (pyOrStr lt.url default_url ++ "")))))))))) := rfl
  have hrender : rendered_lt month day default_url lt =
      "今週のML集会はLT会! " ++ (toString month ++ ("/" ++
        (toString day ++ ("の21時半より開催致します。\n" ++
        (pyOrStr lt.speaker_name "発表者未定" ++ ("さんより「" ++
        (pyOrStr lt.title "タイトル未定" ++
        ("」を行いますので、ぜひみなさんお越しください！\n" ++
        (pyOrStr lt.url default_url ++ ""))))))))) := by
    unfold rendered_lt
    rw [hgen]
  refine ⟨by rw [hgen]; rfl, ?_, ?_, ?_⟩
  · intro hs
    rw [hrender, hs]
    simp only [pyOrStr]
    apply strContains_append_of
    apply strContains_append_of
    apply strContains_append_of
    apply strContains_append_of
    apply strContains_append_of
    exact contains_append_left _ _
  · intro ht
    rw [hrender, ht]
    simp only [pyOrStr]
    apply strContains_append_of
    apply strContains_append_of
    apply strContains_append_of
    apply strContains_append_of
    apply strContains_append_of
    apply strContains_append_of
    apply strContains_append_of
    exact contains_append_left _ _
  · intro hu
    rw [hrender, hu]
    simp only [pyOrStr]
    apply strContains_append_of
    apply strContains_append_of
    apply strContains_append_of
    apply strContains_append_of
    apply strContains_append_of
    apply strContains_append_of
    apply strContains_append_of
    apply strContains_append_of
    apply strContains_append_of
    exact contains_append_left _ _

/-- Witness for C6: the fully-unset lightning-talk info renders with all
three fallbacks. -/
theorem C6_witness :
    (generate_announcement_content_lt LT_TEMPLATE_ITEMS 5 18
          "https://example.com" {}).isOk = true ∧
      strContainsB (rendered_lt 5 18 "https://example.com" {}) "発表者未定"
          = true ∧
      strContainsB (rendered_lt 5 18 "https://example.com" {}) "タイトル未定"
          = true ∧
      strContainsB (rendered_lt 5 18 "https://example.com" {})
          "https://example.com" = true := by
  have h := C6_lt_render_total_and_fallbacks 5 18 "https://example.com" {}
  exact ⟨h.1, h.2.1 rfl, h.2.2.1 rfl, h.2.2.2 rfl⟩

/-- Counterexample for C8: on Monday 2023-05-15 with the default settings
(confirmation weekday "Thu"), the next occurrence of the configured
confirmation weekday is 2023-05-18, yet the rendered confirmation
message does not contain "5/18" — the date it interpolates is the next
Sunday's (sender.py hardcodes `(6 - today.weekday()) % 7`). -/
theorem C8_counterexample :
    default_settings.confirm_weekday = "Thu" ∧
      pyWeekday 738655 = 0 ∧
      civilFromOrdinal
          (get_next_weekday 738655
            (weekday_to_int default_settings.confirm_weekday))
          = (2023, 5, 18) ∧
      strContainsB
          (send_confirmation_message default_settings.action_role 738655)
          "5/18" = false := by decide

/-- C8 (amended): for every role and current date, the rendered
confirmation message contains the configured role reference and the
month/day of the next Sunday (the hardcoded announcement day, not the
configured confirmation weekday), followed by the fixed three-line
legend mapping 👍/⚡/💤 to the three event types and the note that no
reaction means a regular event. -/
theorem C8_amended_confirmation_contents (role : String) (today : Nat) :
    strContainsB (send_confirmation_message role today) role = true ∧
      strContainsB (send_confirmation_message role today)
          (toString (civilFromOrdinal (today + (6 - pyWeekday today) % 7)).2.1
            ++ ("/" ++
              toString
                (civilFromOrdinal (today + (6 - pyWeekday today) % 7)).2.2))
          = true ∧
      strContainsB (send_confirmation_message role today) "👍: 通常開催"
          = true ∧
      strContainsB (send_confirmation_message role today) "⚡: LT開催"
          = true ∧
      strContainsB (send_confirmation_message role today) "💤: おやすみ"
          = true ∧
      strContainsB (send_confirmation_message role today)
          "リアクションがない場合は通常開催として扱います。" = true := by
  simp only [send_confirmation_message]
  refine ⟨contains_append_left _ _, ?_, ?_, ?_, ?_, ?_⟩
  · apply strContains_append_of
    apply strContains_append_of
    exact contains_append3 _ _ _ _
  all_goals
    apply strContains_append_of
    apply strContains_append_of
    apply strContains_append_of
    apply strContains_append_of
    apply strContains_append_of
    decide
